import Mathlib

/-!
Verification of the request construction, authentication and response
normalization pipeline of `src/binance/future_rest.rs` (the `BinanceSwap`
client of the rsex connectivity layer).

The embedding models Rust strings as Lean `String`s (Rust `String::pop`
removes the last unicode scalar, modelled on `String.data`), the
`BTreeMap<String, String>` parameter map as an association list kept sorted
by the same byte-lexicographic order Rust's `Ord for String` uses (UTF-8
byte order coincides with code-point order, so comparing `String.data`
char-wise is exact), machine integers as `Nat`/`Int` with explicit
wrap-around, and `f64` values that the code only ever parses from decimal
strings as exact rationals.  Fallible operations return `Except ExError`,
and the calls a capability method issues over HTTP are returned as an
explicit list so that "no request is sent" is a provable statement.
-/

namespace Rsex

/-! ### Byte-lexicographic string order (Rust `Ord for String`) -/

/-- Lexicographic comparison of char lists by code point; this is the order
`BTreeMap<String, String>` iterates in, since UTF-8 byte order agrees with
code-point order. -/
def listLt : List Char → List Char → Bool
  | [], [] => false
  | [], _ :: _ => true
  | _ :: _, [] => false
  | a :: as, b :: bs => if a < b then true else if b < a then false else listLt as bs

/-- Rust's `String` ordering, used by `BTreeMap<String, String>`. -/
def strLt (s t : String) : Bool := listLt s.data t.data

theorem strExt {s t : String} (h : s.data = t.data) : s = t := by
  cases s; cases t; exact congrArg String.mk h

theorem listLt_irrefl : ∀ l : List Char, listLt l l = false := by
  intro l
  induction l with
  | nil => rfl
  | cons a as ih => simp [listLt, ih]

theorem listLt_both_false_eq :
    ∀ a b : List Char, listLt a b = false → listLt b a = false → a = b := by
  intro a
  induction a with
  | nil =>
    intro b hab _
    cases b with
    | nil => rfl
    | cons x xs => simp [listLt] at hab
  | cons x xs ih =>
    intro b hab hba
    cases b with
    | nil => simp [listLt] at hba
    | cons y ys =>
      by_cases hxy : x < y
      · simp [listLt, hxy] at hab
      · by_cases hyx : y < x
        · simp [listLt, hyx, hxy] at hba
        · have hx : x = y := le_antisymm (not_lt.mp hyx) (not_lt.mp hxy)
          subst hx
          simp only [listLt, if_neg hxy, if_neg hyx] at hab hba
          rw [ih ys hab hba]

theorem strLt_irrefl (s : String) : strLt s s = false := listLt_irrefl s.data

theorem strLt_of_not_lt_of_ne {a b : String}
    (h1 : ¬ strLt a b = true) (h2 : a ≠ b) : strLt b a = true := by
  by_contra h3
  have hab : strLt a b = false := Bool.not_eq_true _ ▸ (Bool.eq_false_iff.mpr h1)
  have hba : strLt b a = false := Bool.not_eq_true _ ▸ (Bool.eq_false_iff.mpr h3)
  exact h2 (strExt (listLt_both_false_eq _ _ hab hba))

/-! ### The `BTreeMap<String, String>` parameter map -/

/-- Association list kept sorted by key; `insert` is `BTreeMap::insert`
(replaces the value stored under an existing key). -/
def Btm.insert : List (String × String) → String → String → List (String × String)
  | [], k, v => [(k, v)]
  | (k1, v1) :: rest, k, v =>
    if strLt k k1 then (k, v) :: (k1, v1) :: rest
    else if k = k1 then (k, v) :: rest
    else (k1, v1) :: Btm.insert rest k v

/-- `BTreeMap::get`. -/
def Btm.lookup : List (String × String) → String → Option String
  | [], _ => none
  | (k1, v1) :: rest, k => if k = k1 then some v1 else Btm.lookup rest k

/-- Key order between map entries. -/
def keyLt (a b : String × String) : Prop := strLt a.1 b.1 = true

theorem Btm.insert_ne_nil (l : List (String × String)) (k v : String) :
    Btm.insert l k v ≠ [] := by
  cases l with
  | nil => simp [Btm.insert]
  | cons p rest =>
    simp only [Btm.insert]
    split
    · simp
    · split <;> simp

theorem Btm.insert_chain_cons (k v : String) :
    ∀ (l : List (String × String)) (x : String × String),
      strLt x.1 k = true → List.Chain' keyLt (x :: l) →
      List.Chain' keyLt (x :: Btm.insert l k v) := by
  intro l
  induction l with
  | nil =>
    intro x hx _
    exact List.chain'_cons.mpr ⟨hx, List.chain'_singleton _⟩
  | cons p rest ih =>
    obtain ⟨k1, v1⟩ := p
    intro x hx hch
    obtain ⟨hxp, hpr⟩ := List.chain'_cons.mp hch
    simp only [Btm.insert]
    by_cases h1 : strLt k k1 = true
    · simp only [h1, if_true]
      exact List.chain'_cons.mpr ⟨hx, List.chain'_cons.mpr ⟨h1, hpr⟩⟩
    · simp only [Bool.not_eq_true] at h1
      simp only [h1, Bool.false_eq_true, if_false]
      by_cases h2 : k = k1
      · subst h2
        simp only [if_pos rfl]
        have hrest : List.Chain' keyLt ((k, v) :: rest) := by
          cases rest with
          | nil => exact List.chain'_singleton _
          | cons q t =>
            obtain ⟨hpq, hqt⟩ := List.chain'_cons.mp hpr
            exact List.chain'_cons.mpr ⟨hpq, hqt⟩
        exact List.chain'_cons.mpr ⟨hx, hrest⟩
      · simp only [h2, if_false]
        have hpk : strLt k1 k = true :=
          strLt_of_not_lt_of_ne (by simp [h1]) h2
        exact List.chain'_cons.mpr ⟨hxp, ih (k1, v1) hpk hpr⟩

theorem Btm.insert_sorted {l : List (String × String)} (k v : String)
    (h : List.Chain' keyLt l) : List.Chain' keyLt (Btm.insert l k v) := by
  cases l with
  | nil => exact List.chain'_singleton _
  | cons p rest =>
    obtain ⟨k1, v1⟩ := p
    simp only [Btm.insert]
    by_cases h1 : strLt k k1 = true
    · simp only [h1, if_true]
      exact List.chain'_cons.mpr ⟨h1, h⟩
    · simp only [Bool.not_eq_true] at h1
      simp only [h1, Bool.false_eq_true, if_false]
      by_cases h2 : k = k1
      · subst h2
        rw [if_pos rfl]
        cases rest with
        | nil => exact List.chain'_singleton _
        | cons q t =>
          obtain ⟨hpq, hqt⟩ := List.chain'_cons.mp h
          exact List.chain'_cons.mpr ⟨hpq, hqt⟩
      · simp only [h2, if_false]
        have hpk : strLt k1 k = true :=
          strLt_of_not_lt_of_ne (by simp [h1]) h2
        exact Btm.insert_chain_cons k v rest (k1, v1) hpk h

/-- The map obtained by performing a sequence of `BTreeMap::insert` calls on
an initially empty map (this reaches every parameter map a caller can hand
to `build_signed_request`). -/
def mapOfInserts (inserts : List (String × String)) : List (String × String) :=
  inserts.foldl (fun acc kv => Btm.insert acc kv.1 kv.2) []

theorem foldl_insert_sorted (inserts : List (String × String)) :
    ∀ m : List (String × String), List.Chain' keyLt m →
      List.Chain' keyLt (inserts.foldl (fun acc kv => Btm.insert acc kv.1 kv.2) m) := by
  induction inserts with
  | nil => intro m hm; exact hm
  | cons kv rest ih =>
    intro m hm
    exact ih _ (Btm.insert_sorted kv.1 kv.2 hm)

theorem mapOfInserts_sorted (inserts : List (String × String)) :
    List.Chain' keyLt (mapOfInserts inserts) :=
  foldl_insert_sorted inserts [] List.chain'_nil

theorem Btm.lookup_insert_self (l : List (String × String)) (k v : String) :
    Btm.lookup (Btm.insert l k v) k = some v := by
  induction l with
  | nil => simp [Btm.insert, Btm.lookup]
  | cons p rest ih =>
    obtain ⟨k1, v1⟩ := p
    simp only [Btm.insert]
    by_cases h1 : strLt k k1 = true
    · simp [h1, Btm.lookup]
    · simp only [Bool.not_eq_true] at h1
      by_cases h2 : k = k1
      · subst h2
        simp [h1, Btm.lookup]
      · simp [h1, h2, Btm.lookup, ih]

theorem Btm.lookup_insert_ne (l : List (String × String)) (k k2 v2 : String)
    (hne : k ≠ k2) : Btm.lookup (Btm.insert l k2 v2) k = Btm.lookup l k := by
  induction l with
  | nil => simp [Btm.insert, Btm.lookup, hne]
  | cons p rest ih =>
    obtain ⟨k1, v1⟩ := p
    simp only [Btm.insert]
    by_cases h1 : strLt k2 k1 = true
    · simp [h1, Btm.lookup, hne]
    · simp only [Bool.not_eq_true] at h1
      by_cases h2 : k2 = k1
      · subst h2
        simp [h1, Btm.lookup, hne]
      · simp only [h1, Bool.false_eq_true, if_false, h2]
        simp [Btm.lookup, ih]

/-! ### Canonical query serialization (`build_signed_request`, lines 115-130) -/

/-- Rust `String::pop`: drop the last char (unicode scalar). -/
def strPop (s : String) : String := String.mk s.data.dropLast

/-- `format!("{}={}&", k, v)`, the fragment pushed per entry. -/
def entryAmp (kv : String × String) : String := kv.1 ++ "=" ++ kv.2 ++ "&"

/-- The serialization loop of `build_signed_request`: starting from `req`,
push `format!("{}={}&", k, v)` for each entry in map order. -/
def serFold (init : String) (params : List (String × String)) : String :=
  params.foldl (fun req kv => req ++ entryAmp kv) init

/-- Serialize the (sorted) map and `pop` the trailing separator, exactly as
lines 120-125 do. -/
def serializeParams (params : List (String × String)) : String :=
  strPop (serFold "" params)

/-- Spec-side rendering (§4.2): fragments joined by single `&` separators
with no trailing separator. -/
def joinQuery : List String → String
  | [] => ""
  | [p] => p
  | p :: ps => p ++ "&" ++ joinQuery ps

/-- The `k=v` fragments of a parameter list, in list order. -/
def queryParts (params : List (String × String)) : List String :=
  params.map (fun kv => kv.1 ++ "=" ++ kv.2)

theorem strAppend_data (s t : String) : (s ++ t).data = s.data ++ t.data := rfl

theorem strAppend_assoc (a b c : String) : a ++ b ++ c = a ++ (b ++ c) :=
  strExt (by simp only [strAppend_data, List.append_assoc])

theorem strAppend_empty (s : String) : s ++ "" = s :=
  strExt (by simp only [strAppend_data]; exact List.append_nil s.data)

theorem strEmpty_append (s : String) : "" ++ s = s :=
  strExt (List.nil_append s.data)

theorem strPop_concat (s : String) : strPop (s ++ "&") = s :=
  strExt (by
    show ((s ++ "&").data).dropLast = s.data
    rw [strAppend_data, show ("&" : String).data = ['&'] from rfl]
    simp)

theorem serFold_cons (init : String) (kv : String × String)
    (l : List (String × String)) :
    serFold init (kv :: l) = serFold (init ++ entryAmp kv) l := rfl

theorem serFold_shift (l : List (String × String)) :
    ∀ init : String, serFold init l = init ++ serFold "" l := by
  induction l with
  | nil => intro init; exact (strAppend_empty init).symm
  | cons kv rest ih =>
    intro init
    rw [serFold_cons, ih (init ++ entryAmp kv), serFold_cons, strEmpty_append,
      ih (entryAmp kv), strAppend_assoc]

theorem serFold_eq_joinQuery_amp (l : List (String × String)) :
    ∀ kv : String × String,
      serFold "" (kv :: l) = joinQuery (queryParts (kv :: l)) ++ "&" := by
  induction l with
  | nil => intro kv; rfl
  | cons kv2 rest ih =>
    intro kv
    rw [serFold_cons, strEmpty_append, serFold_shift, ih kv2]
    show entryAmp kv ++ (joinQuery (queryParts (kv2 :: rest)) ++ "&")
      = joinQuery ((kv.1 ++ "=" ++ kv.2) :: queryParts (kv2 :: rest)) ++ "&"
    have hnonempty : ∃ p ps, queryParts (kv2 :: rest) = p :: ps :=
      ⟨kv2.1 ++ "=" ++ kv2.2, queryParts rest, rfl⟩
    obtain ⟨p, ps, hp⟩ := hnonempty
    rw [hp]
    show kv.1 ++ "=" ++ kv.2 ++ "&" ++ (joinQuery (p :: ps) ++ "&")
      = (kv.1 ++ "=" ++ kv.2 ++ "&" ++ joinQuery (p :: ps)) ++ "&"
    simp only [strAppend_assoc]

theorem serializeParams_eq_joinQuery (l : List (String × String)) :
    serializeParams l = joinQuery (queryParts l) := by
  cases l with
  | nil => rfl
  | cons kv rest =>
    show strPop (serFold "" (kv :: rest)) = joinQuery (queryParts (kv :: rest))
    rw [serFold_eq_joinQuery_amp rest kv, strPop_concat]

theorem queryPart_ne_empty (kv : String × String) : kv.1 ++ "=" ++ kv.2 ≠ "" := by
  intro h
  have hd := congrArg String.data h
  rw [strAppend_data, strAppend_data, show ("=" : String).data = ['='] from rfl] at hd
  simp at hd

theorem joinQuery_cons_ne_empty (p : String) (ps : List String) (hp : p ≠ "") :
    joinQuery (p :: ps) ≠ "" := by
  cases ps with
  | nil => exact hp
  | cons q t =>
    intro h
    have hd := congrArg String.data h
    rw [show joinQuery (p :: q :: t) = p ++ "&" ++ joinQuery (q :: t) from rfl,
      strAppend_data, strAppend_data, show ("&" : String).data = ['&'] from rfl] at hd
    simp at hd

/-! ### Errors and `build_signed_request` -/

/-- Modelled from the spec: the error enum `ExError` is defined in
`src/errors.rs`, which is not among the sources under review.  The variants
follow the spec's error taxonomy (§7: `TransportError`, `ApiError`,
`DecodeError`, `ClockError`, `NotFound`, `Unsupported`); the reviewed source
file only ever constructs `ExError::ApiError(String)`. -/
inductive ExError where
  | ApiError (msg : String)
  | TransportError (msg : String)
  | DecodeError (msg : String)
  | ClockError
  | NotFound
  | Unsupported
deriving DecidableEq

/-- `build_signed_request` (lines 115-130).  The external timestamp source
`get_timestamp` (from `src/utils.rs`, not under review) is modelled as an
`Option Nat` argument: `some ts` when the wall clock is available, `none`
when it fails.  On failure the source returns
`Err(Box::new(ExError::ApiError("get_timestamp failed".into())))`. -/
def build_signed_request (params : List (String × String)) (clock : Option Nat) :
    Except ExError String :=
  let params1 := Btm.insert params "recvWindow" "5000"
  match clock with
  | some ts => Except.ok (serializeParams (Btm.insert params1 "timestamp" (toString ts)))
  | none => Except.error (ExError.ApiError "get_timestamp failed")

/-- The parameter map as it stands just before serialization: caller
parameters plus the injected `recvWindow` and `timestamp` entries. -/
def signedParams (params : List (String × String)) (ts : Nat) :
    List (String × String) :=
  Btm.insert (Btm.insert params "recvWindow" "5000") "timestamp" (toString ts)

theorem build_signed_request_some (params : List (String × String)) (ts : Nat) :
    build_signed_request params (some ts) =
      Except.ok (serializeParams (signedParams params ts)) := rfl

theorem build_signed_request_none (params : List (String × String)) :
    build_signed_request params none =
      Except.error (ExError.ApiError "get_timestamp failed") := rfl

/-! ### SHA-256, HMAC and hex encoding

The source signs with `ring::hmac` over `digest::SHA256` and encodes with
`hex::encode`; both crates are external collaborators, so they are embedded
here by their standard definitions (FIPS 180-4 / RFC 2104), over byte lists
(`Nat`s below 256) with 32-bit words as `Nat` reduced mod `2^32`. -/

/-- Truncate to a 32-bit word. -/
def w32 (x : Nat) : Nat := x % 4294967296

/-- Rotate a 32-bit word right by `n`. -/
def rotWord (n x : Nat) : Nat := w32 ((x >>> n) ||| (x <<< (32 - n)))

/-- The big Σ₀ function of FIPS 180-4. -/
def sumA (x : Nat) : Nat := rotWord 2 x ^^^ rotWord 13 x ^^^ rotWord 22 x

/-- The big Σ₁ function. -/
def sumE (x : Nat) : Nat := rotWord 6 x ^^^ rotWord 11 x ^^^ rotWord 25 x

/-- The small σ₀ function. -/
def sigLo (x : Nat) : Nat := rotWord 7 x ^^^ rotWord 18 x ^^^ (x >>> 3)

/-- The small σ₁ function. -/
def sigHi (x : Nat) : Nat := rotWord 17 x ^^^ rotWord 19 x ^^^ (x >>> 10)

/-- SHA-256 choice function; `¬x` is complement within 32 bits. -/
def chf (x y z : Nat) : Nat := (x &&& y) ^^^ ((x ^^^ 4294967295) &&& z)

def majf (x y z : Nat) : Nat := (x &&& y) ^^^ (x &&& z) ^^^ (y &&& z)

/-- The eight 32-bit state words of SHA-256. -/
structure H8 where
  a : Nat
  b : Nat
  c : Nat
  d : Nat
  e : Nat
  f : Nat
  g : Nat
  h : Nat
deriving DecidableEq

/-- The 64 SHA-256 round constants (FIPS 180-4 §4.2.2, in decimal). -/
def shaK : List Nat :=
  [1116352408, 1899447441, 3049323471, 3921009573, 961987163,
   1508970993, 2453635748, 2870763221, 3624381080, 310598401,
   607225278, 1426881987, 1925078388, 2162078206, 2614888103,
   3248222580, 3835390401, 4022224774, 264347078, 604807628,
   770255983, 1249150122, 1555081692, 1996064986, 2554220882,
   2821834349, 2952996808, 3210313671, 3336571891, 3584528711,
   113926993, 338241895, 666307205, 773529912, 1294757372,
   1396182291, 1695183700, 1986661051, 2177026350, 2456956037,
   2730485921, 2820302411, 3259730800, 3345764771, 3516065817,
   3600352804, 4094571909, 275423344, 430227734, 506948616,
   659060556, 883997877, 958139571, 1322822218, 1537002063,
   1747873779, 1955562222, 2024104815, 2227730452, 2361852424,
   2428436474, 2756734187, 3204031479, 3329325298]

/-- The SHA-256 initial hash value (FIPS 180-4 §5.3.3, in decimal). -/
def shaH0 : H8 :=
  ⟨1779033703, 3144134277, 1013904242, 2773480762,
   1359893119, 2600822924, 528734635, 1541459225⟩

/-- Big-endian bytes of a 64-bit length field. -/
def be64 (n : Nat) : List Nat :=
  [(n >>> 56) % 256, (n >>> 48) % 256, (n >>> 40) % 256, (n >>> 32) % 256,
   (n >>> 24) % 256, (n >>> 16) % 256, (n >>> 8) % 256, n % 256]

/-- Big-endian bytes of a 32-bit word. -/
def be32 (n : Nat) : List Nat :=
  [(n >>> 24) % 256, (n >>> 16) % 256, (n >>> 8) % 256, n % 256]

/-- FIPS 180-4 padding: `0x80`, zeros to 56 mod 64, then the bit length. -/
def padMsg (msg : List Nat) : List Nat :=
  let len := msg.length
  let zeros := (120 - ((len + 1) % 64)) % 64
  msg ++ [128] ++ List.replicate zeros 0 ++ be64 (8 * len)

/-- Split into 64-byte chunks (fuel-structural so the kernel can reduce it). -/
def chunks64 : Nat → List Nat → List (List Nat)
  | 0, _ => []
  | _, [] => []
  | fuel + 1, l => l.take 64 :: chunks64 fuel (l.drop 64)

/-- Big-endian 32-bit words of a chunk. -/
def toWords : List Nat → List Nat
  | a :: b :: c :: d :: rest => (((a * 256 + b) * 256 + c) * 256 + d) :: toWords rest
  | _ => []

/-- Message-schedule extension step, appending one word per fuel unit. -/
def extendLoop : Nat → List Nat → List Nat
  | 0, acc => acc
  | n + 1, acc =>
    let i := acc.length
    let t := w32 (sigHi (acc.getD (i - 2) 0) + acc.getD (i - 7) 0 +
                  sigLo (acc.getD (i - 15) 0) + acc.getD (i - 16) 0)
    extendLoop n (acc ++ [t])

/-- Extend the 16 chunk words to the 64 schedule words. -/
def schedule (ws : List Nat) : List Nat := extendLoop 48 ws

/-- One SHA-256 compression round. -/
def roundFn (st : H8) (kw : Nat × Nat) : H8 :=
  let t1 := w32 (st.h + sumE st.e + chf st.e st.f st.g + kw.1 + kw.2)
  let t2 := w32 (sumA st.a + majf st.a st.b st.c)
  ⟨w32 (t1 + t2), st.a, st.b, st.c, w32 (st.d + t1), st.e, st.f, st.g⟩

/-- Compress one 64-byte chunk into the running state. -/
def compress (st : H8) (chunk : List Nat) : H8 :=
  let ws := schedule (toWords chunk)
  let fin := (shaK.zip ws).foldl roundFn st
  ⟨w32 (st.a + fin.a), w32 (st.b + fin.b), w32 (st.c + fin.c), w32 (st.d + fin.d),
   w32 (st.e + fin.e), w32 (st.f + fin.f), w32 (st.g + fin.g), w32 (st.h + fin.h)⟩

/-- Serialize the final state to the 32 digest bytes. -/
def digestBytes (st : H8) : List Nat :=
  ([st.a, st.b, st.c, st.d, st.e, st.f, st.g, st.h].map be32).flatten

/-- SHA-256 of a byte list. -/
def sha256 (msg : List Nat) : List Nat :=
  let padded := padMsg msg
  digestBytes ((chunks64 padded.length padded).foldl compress shaH0)

/-- RFC 2104 HMAC over SHA-256 (block size 64). -/
def hmacSha256 (key msg : List Nat) : List Nat :=
  let key0 := if 64 < key.length then sha256 key else key
  let keyBlock := key0 ++ List.replicate (64 - key0.length) 0
  let ipadKey := keyBlock.map (fun b => b ^^^ 54)
  let opadKey := keyBlock.map (fun b => b ^^^ 92)
  sha256 (opadKey ++ sha256 (ipadKey ++ msg))

/-- Hex digit for a value below 16, lowercase (`hex::encode` alphabet). -/
def hexDigitChar (n : Nat) : Char := if n < 10 then Char.ofNat (48 + n) else Char.ofNat (87 + n)

/-- `hex::encode`: two lowercase hex chars per byte. -/
def hexEncode (bs : List Nat) : String :=
  String.mk (bs.foldr (fun b acc => hexDigitChar (b / 16) :: hexDigitChar (b % 16) :: acc) [])

/-- The UTF-8 bytes of a string (`str::as_bytes`). -/
def strBytes (s : String) : List Nat := s.toUTF8.toList.map (fun b => b.toNat)

/-- The lowercase hexadecimal alphabet. -/
def lowerHexChars : List Char := "0123456789abcdef".data

theorem digestBytes_length (st : H8) : (digestBytes st).length = 32 := rfl

theorem sha256_length (msg : List Nat) : (sha256 msg).length = 32 :=
  digestBytes_length _

theorem hmacSha256_length (key msg : List Nat) : (hmacSha256 key msg).length = 32 :=
  sha256_length _

theorem hexEncode_data (b : Nat) (t : List Nat) :
    (hexEncode (b :: t)).data
      = hexDigitChar (b / 16) :: hexDigitChar (b % 16) :: (hexEncode t).data := rfl

theorem hexEncode_length (bs : List Nat) : (hexEncode bs).length = 2 * bs.length := by
  induction bs with
  | nil => rfl
  | cons b t ih =>
    show (hexEncode (b :: t)).data.length = 2 * (b :: t).length
    rw [hexEncode_data]
    have ih2 : (hexEncode t).data.length = 2 * t.length := ih
    simp only [List.length_cons, ih2]
    omega

theorem be32_mem_lt (x : Nat) : ∀ b ∈ be32 x, b < 256 := by
  intro b hb
  simp only [be32, List.mem_cons, List.not_mem_nil, or_false] at hb
  rcases hb with rfl | rfl | rfl | rfl <;> exact Nat.mod_lt _ (by norm_num)

theorem digestBytes_mem_lt (st : H8) : ∀ b ∈ digestBytes st, b < 256 := by
  intro b hb
  simp only [digestBytes, List.mem_flatten, List.mem_map] at hb
  obtain ⟨l, ⟨x, _, rfl⟩, hbl⟩ := hb
  exact be32_mem_lt x b hbl

theorem sha256_mem_lt (msg : List Nat) : ∀ b ∈ sha256 msg, b < 256 :=
  digestBytes_mem_lt _

theorem hmacSha256_mem_lt (key msg : List Nat) : ∀ b ∈ hmacSha256 key msg, b < 256 :=
  sha256_mem_lt _

theorem hexDigitChar_mem (n : Nat) (h : n < 16) : hexDigitChar n ∈ lowerHexChars := by
  revert n
  decide

theorem hexEncode_mem (bs : List Nat) (hbs : ∀ b ∈ bs, b < 256) :
    ∀ ch ∈ (hexEncode bs).data, ch ∈ lowerHexChars := by
  induction bs with
  | nil => intro ch hch; simp [hexEncode] at hch
  | cons b t ih =>
    intro ch hch
    rw [hexEncode_data] at hch
    have hb : b < 256 := hbs b (List.mem_cons_self b t)
    rcases hch with _ | ⟨_, hch⟩
    · exact hexDigitChar_mem _ (by omega)
    · rcases hch with _ | ⟨_, hch⟩
      · exact hexDigitChar_mem _ (Nat.mod_lt _ (by norm_num))
      · exact ih (fun x hx => hbs x (List.mem_cons_of_mem b hx)) ch hch

/-! ### The client and `sign` (lines 15-29 and 107-113) -/

/-- The `BinanceSwap` client struct. -/
structure BinanceSwap where
  api_key : String
  secret_key : String
  host : String

/-- `BinanceSwap::new`: absent credentials default to the empty string. -/
def BinanceSwap.new (api_key secret_key : Option String) (host : String) : BinanceSwap :=
  ⟨api_key.getD "", secret_key.getD "", host⟩

/-- The hex-encoded HMAC-SHA256 of `request` keyed by the client's secret. -/
def signatureHex (secret request : String) : String :=
  hexEncode (hmacSha256 (strBytes secret) (strBytes request))

/-- `sign` (lines 107-113): build the full signed URL
`{host}{endpoint}?{request}&signature={hex}`. -/
def sign (c : BinanceSwap) (endpoint request : String) : String :=
  let signature := signatureHex c.secret_key request
  let body := request ++ "&signature=" ++ signature
  c.host ++ endpoint ++ "?" ++ body

/-! ### Transport (lines 31-105, 132-156) -/

instance {ε α : Type} [DecidableEq ε] [DecidableEq α] : DecidableEq (Except ε α) := fun a b =>
  match a, b with
  | Except.ok x, Except.ok y =>
    if h : x = y then Decidable.isTrue (by rw [h]) else Decidable.isFalse (by simp [h])
  | Except.error e, Except.error f =>
    if h : e = f then Decidable.isTrue (by rw [h]) else Decidable.isFalse (by simp [h])
  | Except.ok _, Except.error _ => Decidable.isFalse (by simp)
  | Except.error _, Except.ok _ => Decidable.isFalse (by simp)

/-- An HTTP response: status code and body text. -/
structure Response where
  status : Nat
  body : String
deriving DecidableEq

/-- One outgoing HTTP request as the client assembles it. -/
structure HttpCall where
  method : String
  url : String
  headers : List (String × String)

/-- The blocking HTTP transport (the external reqwest client), as an oracle
from an assembled call to a transport-level failure or a raw response. -/
def Transport : Type := HttpCall → Except ExError Response

/-- `handler` (lines 148-156): status 200 yields the body text, any other
status yields `ExError::ApiError(format!("response: {:?}", s))`, where the
`Debug` form of a status code is its numeric text. -/
def handler (resp : Response) : Except ExError String :=
  if resp.status = 200 then Except.ok resp.body
  else Except.error (ExError.ApiError ("response: " ++ toString resp.status))

/-- `build_headers` (lines 132-146): always `user-agent` and `x-mbx-apikey`;
`content-type: application/x-www-form-urlencoded` exactly when the boolean
argument is true.  (`HeaderValue::from_str` on the api key is modelled as
total; header insertion order follows the source.) -/
def build_headers (c : BinanceSwap) (content_type : Bool) : List (String × String) :=
  [("user-agent", "rsquant")] ++
  (if content_type then [("content-type", "application/x-www-form-urlencoded")] else []) ++
  [("x-mbx-apikey", c.api_key)]

/-- The seven transport methods of the client. -/
inductive TransportFn where
  | get
  | post
  | put
  | delete
  | get_signed
  | post_signed
  | delete_signed
deriving DecidableEq

/-- The custom headers each transport method attaches: `get` (line 36) uses
`reqwest::blocking::get` with no custom headers at all; `post`/`put`/`delete`
(lines 45, 58, 71) use `build_headers(false)`; the three signed verbs
(lines 82, 92, 102) use `build_headers(true)`. -/
def headersOf (c : BinanceSwap) : TransportFn → List (String × String)
  | TransportFn.get => []
  | TransportFn.post => build_headers c false
  | TransportFn.put => build_headers c false
  | TransportFn.delete => build_headers c false
  | TransportFn.get_signed => build_headers c true
  | TransportFn.post_signed => build_headers c true
  | TransportFn.delete_signed => build_headers c true

/-- `get_signed` (lines 77-85), with the issued call returned alongside. -/
def get_signed (c : BinanceSwap) (trans : Transport) (endpoint request : String) :
    Except ExError String × List HttpCall :=
  let url := sign c endpoint request
  let call : HttpCall := ⟨"GET", url, build_headers c true⟩
  match trans call with
  | Except.error e => (Except.error e, [call])
  | Except.ok resp => (handler resp, [call])

/-- `post_signed` (lines 87-95). -/
def post_signed (c : BinanceSwap) (trans : Transport) (endpoint request : String) :
    Except ExError String × List HttpCall :=
  let url := sign c endpoint request
  let call : HttpCall := ⟨"POST", url, build_headers c true⟩
  match trans call with
  | Except.error e => (Except.error e, [call])
  | Except.ok resp => (handler resp, [call])

/-- `delete_signed` (lines 97-105). -/
def delete_signed (c : BinanceSwap) (trans : Transport) (endpoint request : String) :
    Except ExError String × List HttpCall :=
  let url := sign c endpoint request
  let call : HttpCall := ⟨"DELETE", url, build_headers c true⟩
  match trans call with
  | Except.error e => (Except.error e, [call])
  | Except.ok resp => (handler resp, [call])

/-! ### Decimal parsing and balances (lines 209-230) -/

/-- All-digit parse accumulating into `acc`; fails on any non-digit. -/
def parseDigitsAux : List Char → Nat → Option Nat
  | [], acc => some acc
  | c :: rest, acc =>
    if 48 ≤ c.toNat && c.toNat ≤ 57 then parseDigitsAux rest (acc * 10 + (c.toNat - 48))
    else none

/-- Split a char list at the first dot, if any. -/
def splitAtDot : List Char → List Char × Option (List Char)
  | [] => ([], none)
  | c :: rest =>
    if c = '.' then ([], some rest)
    else
      let p := splitAtDot rest
      (c :: p.1, p.2)

/-- Parse an unsigned decimal numeral (integer part, optional fraction). -/
def parseUnsignedDec (cs : List Char) : Option ℚ :=
  match splitAtDot cs with
  | (intPart, none) =>
    if intPart.isEmpty then none
    else (parseDigitsAux intPart 0).map (fun n => (n : ℚ))
  | (intPart, some fracPart) =>
    if intPart.isEmpty && fracPart.isEmpty then none
    else
      match parseDigitsAux intPart 0, parseDigitsAux fracPart 0 with
      | some i, some f => some ((i : ℚ) + (f : ℚ) / (10 : ℚ) ^ fracPart.length)
      | _, _ => none

/-- Parse a decimal numeral with optional leading minus, as an exact
rational. -/
def parseDecimal (s : String) : Option ℚ :=
  match s.data with
  | '-' :: rest => (parseUnsignedDec rest).map (fun q => -q)
  | cs => parseUnsignedDec cs

/-- Modelled from the spec: `str_to_f64` lives in `src/utils.rs`, which is
not among the sources under review.  Per spec §2/§4.4 it is the safe
numeric conversion from the venue's string-typed decimal balances; `f64`
values are modelled as exact rationals. -/
def str_to_f64 (s : String) : ℚ := (parseDecimal s).getD 0

/-- Modelled from the spec: the normalized `Balance` type lives in
`src/models.rs` (not among the sources under review); fields per spec §3
(`asset`, `free`, `locked`), with `f64` modelled as ℚ. -/
structure Balance where
  asset : String
  free : ℚ
  locked : ℚ
deriving DecidableEq

/-- Modelled from the spec: one per-asset entry of the raw account payload
(`src/binance/types.rs`, not among the sources under review).  Spec §3 has
"raw account with asset balances as strings"; the reviewed source accesses
the fields `asset`, `available_balance` and `wallet_balance`. -/
structure RawAssetBalance where
  asset : String
  available_balance : String
  wallet_balance : String
deriving DecidableEq

/-- Modelled from the spec: the raw account payload, an array of per-asset
balances under `assets`. -/
structure RawSwapAccount where
  assets : List RawAssetBalance
deriving DecidableEq

/-- The pure tail of `get_balance` (lines 215-229): find the queried asset
among the decoded assets and convert, or fail. -/
def balance_from_account (val : RawSwapAccount) (asset : String) : Except ExError Balance :=
  match val.assets.find? (fun bal => bal.asset == asset) with
  | some bal =>
      Except.ok ⟨asset, str_to_f64 bal.available_balance,
        str_to_f64 bal.wallet_balance - str_to_f64 bal.available_balance⟩
  | none => Except.error (ExError.ApiError "asset not found")

/-- `get_balance` (lines 209-230).  JSON decoding of the body into
`RawSwapAccount` is performed by the external serde crate, modelled as the
`decodeAccount` oracle. -/
def get_balance (c : BinanceSwap) (trans : Transport) (clock : Option Nat)
    (decodeAccount : String → Except ExError RawSwapAccount) (asset : String) :
    Except ExError Balance × List HttpCall :=
  match build_signed_request [] clock with
  | Except.error e => (Except.error e, [])
  | Except.ok req =>
    match get_signed c trans "/fapi/v2/account" req with
    | (Except.error e, calls) => (Except.error e, calls)
    | (Except.ok ret, calls) =>
      match decodeAccount ret with
      | Except.error e => (Except.error e, calls)
      | Except.ok val => (balance_from_account val asset, calls)

/-! ### Order cancellation (lines 255-271) -/

/-- `cancel` (lines 255-262). -/
def cancel (c : BinanceSwap) (trans : Transport) (clock : Option Nat) (id : String) :
    Except ExError Bool × List HttpCall :=
  let params := Btm.insert [] "orderId" id
  match build_signed_request params clock with
  | Except.error e => (Except.error e, [])
  | Except.ok req =>
    match delete_signed c trans "/fapi/v1/order" req with
    | (Except.error e, calls) => (Except.error e, calls)
    | (Except.ok _, calls) => (Except.ok true, calls)

/-- `cancel_all` (lines 264-271). -/
def cancel_all (c : BinanceSwap) (trans : Transport) (clock : Option Nat) (symbol : String) :
    Except ExError Bool × List HttpCall :=
  let params := Btm.insert [] "symbol" symbol
  match build_signed_request params clock with
  | Except.error e => (Except.error e, [])
  | Except.ok req =>
    match delete_signed c trans "/fapi/v1/allOpenOrders" req with
    | (Except.error e, calls) => (Except.error e, calls)
    | (Except.ok _, calls) => (Except.ok true, calls)

/-! ### Kline decoding (lines 189-207) -/

/-- `serde_json::Value`. -/
inductive JValue where
  | null
  | bool (b : Bool)
  | num (q : ℚ)
  | str (s : String)
  | arr (items : List JValue)
  | obj (fields : List (String × JValue))

/-- A Rust computation that either panics or produces a value; `Vec`
indexing out of bounds and `Option::unwrap` on `None` panic. -/
inductive PanicOr (α : Type) where
  | panicked (msg : String)
  | ok (a : α)
deriving DecidableEq

/-- Sequencing: a panic aborts everything after it. -/
def PanicOr.bind {α β : Type} : PanicOr α → (α → PanicOr β) → PanicOr β
  | PanicOr.panicked m, _ => PanicOr.panicked m
  | PanicOr.ok a, f => f a

/-- Rust `Vec` indexing `kline[i]`: panics when `i` is out of bounds. -/
def rustIndex (l : List JValue) (i : Nat) : PanicOr JValue :=
  match l[i]? with
  | some v => PanicOr.ok v
  | none => PanicOr.panicked "index out of bounds"

/-- Modelled from the spec: `to_f64` lives in `src/utils.rs`, not among the
sources under review.  Spec §4.4: "numeric fields may arrive as JSON numbers
or numeric-looking strings — conversion must accept either"; any other shape
is an `unwrap` panic in the reference. -/
def to_f64 : JValue → PanicOr ℚ
  | JValue.num q => PanicOr.ok q
  | JValue.str s =>
    match parseDecimal s with
    | some q => PanicOr.ok q
    | none => PanicOr.panicked "to_f64: not a number"
  | _ => PanicOr.panicked "to_f64: not a number"

/-- Modelled from the spec: `to_i64` lives in `src/utils.rs`, not among the
sources under review; as for `to_f64`, integer-valued JSON numbers and
numeric-looking strings are accepted. -/
def to_i64 : JValue → PanicOr Int
  | JValue.num q => if q.den = 1 then PanicOr.ok q.num else PanicOr.panicked "to_i64: not an integer"
  | JValue.str s =>
    match parseDecimal s with
    | some q => if q.den = 1 then PanicOr.ok q.num else PanicOr.panicked "to_i64: not an integer"
    | none => PanicOr.panicked "to_i64: not an integer"
  | _ => PanicOr.panicked "to_i64: not an integer"

/-- Rust `as u64` on an `i64`: wrap into `[0, 2^64)`. -/
def i64_as_u64 (i : Int) : Nat := (i % (2 ^ 64 : Int)).toNat

/-- Modelled from the spec: the normalized `Kline` type lives in
`src/models.rs` (not among the sources under review); fields per spec §3
(timestamp and OHLCV).  `open` is a Lean keyword, hence the field name
`open_`. -/
structure Kline where
  timestamp : Nat
  open_ : ℚ
  high : ℚ
  low : ℚ
  close : ℚ
  volume : ℚ
deriving DecidableEq

/-- The per-row conversion of `get_kline` (lines 196-203): positional
indices 0-5, evaluated in struct-literal order. -/
def kline_of_row (kline : List JValue) : PanicOr Kline :=
  (rustIndex kline 0).bind fun v0 =>
  (to_i64 v0).bind fun ts =>
  (rustIndex kline 1).bind fun v1 =>
  (to_f64 v1).bind fun o =>
  (rustIndex kline 2).bind fun v2 =>
  (to_f64 v2).bind fun hi =>
  (rustIndex kline 3).bind fun v3 =>
  (to_f64 v3).bind fun lo =>
  (rustIndex kline 4).bind fun v4 =>
  (to_f64 v4).bind fun cl =>
  (rustIndex kline 5).bind fun v5 =>
  (to_f64 v5).bind fun vol =>
  PanicOr.ok ⟨i64_as_u64 ts, o, hi, lo, cl, vol⟩

/-- Map a fallible conversion over a list, propagating the first panic. -/
def mapPanic {α β : Type} (f : α → PanicOr β) : List α → PanicOr (List β)
  | [] => PanicOr.ok []
  | x :: xs => (f x).bind fun y => (mapPanic f xs).bind fun ys => PanicOr.ok (y :: ys)

/-- The row-mapping stage of `get_kline` (lines 194-204), applied to an
already-decoded `Vec<Vec<Value>>` response. -/
def get_kline_rows (rows : List (List JValue)) : PanicOr (List Kline) :=
  mapPanic kline_of_row rows

/-! ### Claim theorems -/

/-- C1: For every parameter map handed to `build_signed_request` (any map a
caller can build by a sequence of `BTreeMap::insert` calls, in any order)
and any clock timestamp, the returned canonical query string is the `k=v`
fragments of the final map joined by single `&` separators with no trailing
separator, and the keys of that map are in strict ascending lexicographic
order — regardless of the order in which the caller inserted the keys. -/
theorem C1_canonical_ordering (inserts : List (String × String)) (ts : Nat) :
    build_signed_request (mapOfInserts inserts) (some ts) =
      Except.ok (joinQuery (queryParts (signedParams (mapOfInserts inserts) ts))) ∧
    List.Chain' (fun a b => strLt a b = true)
      ((signedParams (mapOfInserts inserts) ts).map Prod.fst) := by
  constructor
  · rw [build_signed_request_some, serializeParams_eq_joinQuery]
  · have hsorted : List.Chain' keyLt (signedParams (mapOfInserts inserts) ts) :=
      Btm.insert_sorted _ _ (Btm.insert_sorted _ _ (mapOfInserts_sorted inserts))
    exact (List.chain'_map Prod.fst).mpr hsorted

/-- C9: For every input parameter map — including the map built from no
inserts at all — and every clock timestamp, `build_signed_request` succeeds,
the map it serializes binds `recvWindow` to "5000" and `timestamp` to the
clock value (overriding any caller-supplied bindings of those two keys), and
the canonical string is never empty. -/
theorem C9_recvwindow_timestamp (inserts : List (String × String)) (ts : Nat) :
    build_signed_request (mapOfInserts inserts) (some ts) =
      Except.ok (serializeParams (signedParams (mapOfInserts inserts) ts)) ∧
    Btm.lookup (signedParams (mapOfInserts inserts) ts) "recvWindow" = some "5000" ∧
    Btm.lookup (signedParams (mapOfInserts inserts) ts) "timestamp" = some (toString ts) ∧
    serializeParams (signedParams (mapOfInserts inserts) ts) ≠ "" := by
  refine ⟨build_signed_request_some _ _, ?_, ?_, ?_⟩
  · show Btm.lookup (Btm.insert (Btm.insert (mapOfInserts inserts) "recvWindow" "5000")
      "timestamp" (toString ts)) "recvWindow" = some "5000"
    rw [Btm.lookup_insert_ne _ _ _ _ (by decide), Btm.lookup_insert_self]
  · exact Btm.lookup_insert_self _ _ _
  · rw [serializeParams_eq_joinQuery]
    rcases hsp : signedParams (mapOfInserts inserts) ts with _ | ⟨kv, t⟩
    · exact absurd hsp (Btm.insert_ne_nil _ _ _)
    · show joinQuery ((kv.1 ++ "=" ++ kv.2) :: queryParts t) ≠ ""
      exact joinQuery_cons_ne_empty _ _ (queryPart_ne_empty kv)

/-- C2: For every client (hence every secret key, including the empty one),
endpoint and query string, `sign` produces
`{host}{endpoint}?{query}&signature={hex}` — the signature appended after
all other parameters — where `hex` is the hex-encoded HMAC-SHA256 of the
query keyed by the secret, consisting of exactly 64 lowercase hexadecimal
characters.  The construction is total, so with empty credentials it still
succeeds on the client side. -/
theorem C2_signature_suffix (c : BinanceSwap) (endpoint request : String) :
    sign c endpoint request
      = c.host ++ endpoint ++ "?" ++
        (request ++ "&signature=" ++ signatureHex c.secret_key request) ∧
    (signatureHex c.secret_key request).length = 64 ∧
    (signatureHex c.secret_key request).data.Forall (fun ch => ch ∈ lowerHexChars) := by
  refine ⟨rfl, ?_, ?_⟩
  · show (hexEncode (hmacSha256 (strBytes c.secret_key) (strBytes request))).length = 64
    rw [hexEncode_length, hmacSha256_length]
  · rw [List.forall_iff_forall_mem]
    exact hexEncode_mem _ (hmacSha256_mem_lt _ _)

/-- C3: `handler` returns success with the raw body text if and only if the
status is 200; any other status yields an `ApiError` carrying the status
code, regardless of the response body, including an empty body. -/
theorem C3_status_classification (status : Nat) (body : String) :
    (handler ⟨status, body⟩ = Except.ok body ↔ status = 200) ∧
    (status ≠ 200 →
      handler ⟨status, body⟩
        = Except.error (ExError.ApiError ("response: " ++ toString status))) := by
  constructor
  · constructor
    · intro h
      by_contra hne
      simp [handler, hne] at h
    · intro h
      subst h
      simp [handler]
  · intro hne
    simp [handler, hne]

/-- Witness for C3: the theorem applied at status 200 with a body and at
status 404 with an empty body. -/
theorem C3_status_classification_witness :
    handler ⟨200, "hello"⟩ = Except.ok "hello" ∧
    handler ⟨404, ""⟩ = Except.error (ExError.ApiError "response: 404") :=
  ⟨(C3_status_classification 200 "hello").1.mpr rfl,
   (C3_status_classification 404 "").2 (by decide)⟩

/-- C5 counterexample: with the timestamp source unavailable, the code does
not fail with the spec taxonomy's `ClockError`; it constructs
`ExError::ApiError("get_timestamp failed")`. -/
theorem C5_clock_error_counterexample :
    build_signed_request [] none ≠ Except.error ExError.ClockError ∧
    build_signed_request [] none
      = Except.error (ExError.ApiError "get_timestamp failed") :=
  ⟨by decide, rfl⟩

/-- C5 (amended): if the timestamp source is unavailable,
`build_signed_request` fails with `ApiError "get_timestamp failed"` (the
source has no `ClockError` construction), and the whole request is aborted:
the signed capabilities return that error and issue no HTTP call at all. -/
theorem C5_clock_failure_aborts (c : BinanceSwap) (trans : Transport)
    (dec : String → Except ExError RawSwapAccount)
    (params : List (String × String)) (id symbol asset : String) :
    build_signed_request params none
      = Except.error (ExError.ApiError "get_timestamp failed") ∧
    cancel c trans none id = (Except.error (ExError.ApiError "get_timestamp failed"), []) ∧
    cancel_all c trans none symbol
      = (Except.error (ExError.ApiError "get_timestamp failed"), []) ∧
    get_balance c trans none dec asset
      = (Except.error (ExError.ApiError "get_timestamp failed"), []) :=
  ⟨rfl, rfl, rfl, rfl⟩

/-- C7 (code bug): a kline row with fewer than six elements does not fail
with a `DecodeError` — the positional indexing of `get_kline` runs out of
bounds (here `kline[3]` on a three-element row) and panics. -/
theorem C7_short_row_panics :
    get_kline_rows [[JValue.num 1, JValue.num 2, JValue.num 3]]
      = PanicOr.panicked "index out of bounds" := by decide

/-! ### Fixtures for concrete evaluations -/

/-- A client with empty credentials (`BinanceSwap::new(None, None, host)`). -/
def demoClient : BinanceSwap := BinanceSwap.new none none "https://fapi.binance.com"

/-- A transport that always answers status 200 with body `"{}"`. -/
def okTransport : Transport := fun _ => Except.ok ⟨200, "{}"⟩

/-- The spec's fixture account: USDT with available=100, wallet=150. -/
def demoAccount : RawSwapAccount := ⟨[⟨"USDT", "100", "150"⟩]⟩

/-- A transport that always answers status 200 with body `"acct"`. -/
def balTransport : Transport := fun _ => Except.ok ⟨200, "acct"⟩

/-- A decoder that decodes any body to the fixture account. -/
def balDecoder : String → Except ExError RawSwapAccount := fun _ => Except.ok demoAccount

/-- The spec's fixture kline row. -/
def fixtureRow : List JValue :=
  [JValue.num 1620000000000, JValue.str "100.5", JValue.str "101.0",
   JValue.str "99.8", JValue.str "100.9", JValue.str "12.3"]

/-- When the clock works, the transport answers 200 and the body decodes to
`account`, `get_balance` reduces to the pure lookup-and-convert stage. -/
theorem get_balance_pipeline (c : BinanceSwap) (trans : Transport) (ts : Nat)
    (dec : String → Except ExError RawSwapAccount) (account : RawSwapAccount)
    (asset : String)
    (htrans : ∀ call : HttpCall, ∃ bdy : String, trans call = Except.ok ⟨200, bdy⟩)
    (hdec : ∀ bdy : String, dec bdy = Except.ok account) :
    (get_balance c trans (some ts) dec asset).1 = balance_from_account account asset := by
  simp only [get_balance, build_signed_request_some, get_signed]
  obtain ⟨bdy, hbdy⟩ := htrans ⟨"GET",
    sign c "/fapi/v2/account" (serializeParams (signedParams [] ts)),
    build_headers c true⟩
  rw [hbdy]
  simp [handler, hdec bdy]

/-! ### C4 -/

/-- C4 counterexample: for the fixture account holding only USDT, querying
the absent asset BTC does not fail with the `NotFound` error of the spec's
taxonomy — the code constructs `ApiError("asset not found")`. -/
theorem C4_notfound_counterexample :
    (get_balance demoClient balTransport (some 1499827319559) balDecoder "BTC").1
      ≠ Except.error ExError.NotFound ∧
    (get_balance demoClient balTransport (some 1499827319559) balDecoder "BTC").1
      = Except.error (ExError.ApiError "asset not found") := by
  constructor
  · decide
  · decide

/-- C4 (amended): for every account payload and queried asset, when the
clock works, the transport returns status 200 and the body decodes,
`get_balance` returns `free = available_balance` and
`locked = wallet_balance − available_balance` for the first asset entry
matching the query, and fails with the error `ApiError "asset not found"`
(not a zero balance) when no entry matches. -/
theorem C4_balance_semantics (c : BinanceSwap) (trans : Transport) (ts : Nat)
    (dec : String → Except ExError RawSwapAccount) (account : RawSwapAccount)
    (asset : String)
    (htrans : ∀ call : HttpCall, ∃ bdy : String, trans call = Except.ok ⟨200, bdy⟩)
    (hdec : ∀ bdy : String, dec bdy = Except.ok account) :
    (∀ bal, account.assets.find? (fun b => b.asset == asset) = some bal →
      (get_balance c trans (some ts) dec asset).1
        = Except.ok ⟨asset, str_to_f64 bal.available_balance,
            str_to_f64 bal.wallet_balance - str_to_f64 bal.available_balance⟩) ∧
    ((∀ bal ∈ account.assets, bal.asset ≠ asset) →
      (get_balance c trans (some ts) dec asset).1
        = Except.error (ExError.ApiError "asset not found")) := by
  have hpipe := get_balance_pipeline c trans ts dec account asset htrans hdec
  constructor
  · intro bal hfind
    rw [hpipe]
    simp [balance_from_account, hfind]
  · intro habsent
    have hnone : account.assets.find? (fun b => b.asset == asset) = none :=
      List.find?_eq_none.mpr (fun b hb => by simp [habsent b hb])
    rw [hpipe]
    simp [balance_from_account, hnone]

/-- Witness for C4 at the spec's fixture: available=100, wallet=150 gives
free=100, locked=50 for USDT; BTC is absent. -/
theorem C4_balance_semantics_witness :
    (get_balance demoClient balTransport (some 1499827319559) balDecoder "USDT").1
      = Except.ok ⟨"USDT", 100, 50⟩ ∧
    (get_balance demoClient balTransport (some 1499827319559) balDecoder "BTC").1
      = Except.error (ExError.ApiError "asset not found") := by
  constructor
  · have h := (C4_balance_semantics demoClient balTransport 1499827319559 balDecoder
      demoAccount "USDT" (fun _ => ⟨"acct", rfl⟩) (fun _ => rfl)).1
      ⟨"USDT", "100", "150"⟩ (by decide)
    rw [h]
    have e100 : str_to_f64 "100" = ((100 : ℕ) : ℚ) := rfl
    have e150 : str_to_f64 "150" = ((150 : ℕ) : ℚ) := rfl
    norm_num [e100, e150]
  · exact (C4_balance_semantics demoClient balTransport 1499827319559 balDecoder
      demoAccount "BTC" (fun _ => ⟨"acct", rfl⟩) (fun _ => rfl)).2 (by decide)

/-! ### C6 -/

/-- C6 counterexample: at a concrete client, the form content-type header IS
set on a signed call, the API-key header IS set on an unauthenticated POST,
and the plain GET sets no user-agent (no custom headers at all) — each a
violation of the claim. -/
theorem C6_headers_counterexample :
    ("content-type", "application/x-www-form-urlencoded")
        ∈ headersOf demoClient TransportFn.post_signed ∧
    ("x-mbx-apikey", demoClient.api_key) ∈ headersOf demoClient TransportFn.post ∧
    headersOf demoClient TransportFn.get = [] := by decide

/-- C6 (amended): every POST/PUT/DELETE — unauthenticated or signed — and
every signed call sets the user-agent header and the `x-mbx-apikey` header
(the API-key header is not restricted to authenticated calls); the
form-encoded content-type header is set exactly on the three signed verbs,
not on the unauthenticated bodied calls; the plain GET sets no custom
headers at all. -/
theorem C6_headers (c : BinanceSwap) (f : TransportFn) :
    (("user-agent", "rsquant") ∈ headersOf c f ↔ f ≠ TransportFn.get) ∧
    (("x-mbx-apikey", c.api_key) ∈ headersOf c f ↔ f ≠ TransportFn.get) ∧
    (("content-type", "application/x-www-form-urlencoded") ∈ headersOf c f ↔
      (f = TransportFn.get_signed ∨ f = TransportFn.post_signed ∨
       f = TransportFn.delete_signed)) := by
  cases f <;> simp [headersOf, build_headers]

/-- Witness for C6: the theorem applied at a concrete client for an
unauthenticated PUT and a signed DELETE. -/
theorem C6_headers_witness :
    ("x-mbx-apikey", demoClient.api_key) ∈ headersOf demoClient TransportFn.put ∧
    ("content-type", "application/x-www-form-urlencoded")
        ∈ headersOf demoClient TransportFn.delete_signed :=
  ⟨(C6_headers demoClient TransportFn.put).2.1.mpr (by decide),
   (C6_headers demoClient TransportFn.delete_signed).2.2.mpr (Or.inr (Or.inr rfl))⟩

/-! ### C8 -/

/-- C8: for every kline row whose first six entries convert — each accepted
as a JSON number or a numeric-looking string — the positional indices 0-5
map to timestamp, open, high, low, close, volume respectively. -/
theorem C8_kline_mapping (v0 v1 v2 v3 v4 v5 : JValue) (rest : List JValue)
    (t : Int) (o hi lo cl vol : ℚ)
    (h0 : to_i64 v0 = PanicOr.ok t) (h1 : to_f64 v1 = PanicOr.ok o)
    (h2 : to_f64 v2 = PanicOr.ok hi) (h3 : to_f64 v3 = PanicOr.ok lo)
    (h4 : to_f64 v4 = PanicOr.ok cl) (h5 : to_f64 v5 = PanicOr.ok vol) :
    kline_of_row (v0 :: v1 :: v2 :: v3 :: v4 :: v5 :: rest)
      = PanicOr.ok ⟨i64_as_u64 t, o, hi, lo, cl, vol⟩ := by
  simp only [kline_of_row, rustIndex, List.getElem?_cons_zero, List.getElem?_cons_succ,
    h0, h1, h2, h3, h4, h5, PanicOr.bind]

/-- Witness for C8 at the spec's fixture row, which must map to
`Kline{timestamp:1620000000000, open:100.5, high:101.0, low:99.8,
close:100.9, volume:12.3}`. -/
theorem C8_kline_mapping_witness :
    kline_of_row fixtureRow
      = PanicOr.ok ⟨1620000000000, 100.5, 101.0, 99.8, 100.9, 12.3⟩ := by
  have h0 : to_i64 (JValue.num 1620000000000) = PanicOr.ok 1620000000000 := by
    simp [to_i64]
  have h1 : to_f64 (JValue.str "100.5") = PanicOr.ok (100.5 : ℚ) := by
    have p : parseDecimal "100.5"
        = some (((100 : ℕ) : ℚ) + ((5 : ℕ) : ℚ) / (10 : ℚ) ^ (1 : ℕ)) := rfl
    simp only [to_f64, p]
    norm_num
  have h2 : to_f64 (JValue.str "101.0") = PanicOr.ok (101.0 : ℚ) := by
    have p : parseDecimal "101.0"
        = some (((101 : ℕ) : ℚ) + ((0 : ℕ) : ℚ) / (10 : ℚ) ^ (1 : ℕ)) := rfl
    simp only [to_f64, p]
    norm_num
  have h3 : to_f64 (JValue.str "99.8") = PanicOr.ok (99.8 : ℚ) := by
    have p : parseDecimal "99.8"
        = some (((99 : ℕ) : ℚ) + ((8 : ℕ) : ℚ) / (10 : ℚ) ^ (1 : ℕ)) := rfl
    simp only [to_f64, p]
    norm_num
  have h4 : to_f64 (JValue.str "100.9") = PanicOr.ok (100.9 : ℚ) := by
    have p : parseDecimal "100.9"
        = some (((100 : ℕ) : ℚ) + ((9 : ℕ) : ℚ) / (10 : ℚ) ^ (1 : ℕ)) := rfl
    simp only [to_f64, p]
    norm_num
  have h5 : to_f64 (JValue.str "12.3") = PanicOr.ok (12.3 : ℚ) := by
    have p : parseDecimal "12.3"
        = some (((12 : ℕ) : ℚ) + ((3 : ℕ) : ℚ) / (10 : ℚ) ^ (1 : ℕ)) := rfl
    simp only [to_f64, p]
    norm_num
  have h := C8_kline_mapping (JValue.num 1620000000000) (JValue.str "100.5")
    (JValue.str "101.0") (JValue.str "99.8") (JValue.str "100.9") (JValue.str "12.3")
    [] 1620000000000 (100.5 : ℚ) (101.0 : ℚ) (99.8 : ℚ) (100.9 : ℚ) (12.3 : ℚ)
    h0 h1 h2 h3 h4 h5
  have ht : i64_as_u64 1620000000000 = 1620000000000 := by decide
  rw [ht] at h
  exact h

/-! ### C10 -/

/-- C10: `cancel` and `cancel_all` never return `Ok(false)`: any successful
result is `true`; and whenever the clock works and the underlying HTTP call
succeeds (status 200), the result is exactly `Ok(true)`.  Transport failures
and non-200 statuses propagate as errors. -/
theorem C10_cancel_true (c : BinanceSwap) (trans : Transport) (clock : Option Nat)
    (id symbol : String) :
    (∀ b : Bool, (cancel c trans clock id).1 = Except.ok b → b = true) ∧
    (∀ b : Bool, (cancel_all c trans clock symbol).1 = Except.ok b → b = true) ∧
    (∀ ts : Nat, clock = some ts →
      (∀ call : HttpCall, ∃ bdy : String, trans call = Except.ok ⟨200, bdy⟩) →
      (cancel c trans clock id).1 = Except.ok true ∧
      (cancel_all c trans clock symbol).1 = Except.ok true) ∧
    (∀ (ts status : Nat) (bdy : String), clock = some ts → status ≠ 200 →
      (∀ call : HttpCall, trans call = Except.ok ⟨status, bdy⟩) →
      (cancel c trans clock id).1
        = Except.error (ExError.ApiError ("response: " ++ toString status)) ∧
      (cancel_all c trans clock symbol).1
        = Except.error (ExError.ApiError ("response: " ++ toString status))) ∧
    (∀ (ts : Nat) (e : ExError), clock = some ts →
      (∀ call : HttpCall, trans call = Except.error e) →
      (cancel c trans clock id).1 = Except.error e ∧
      (cancel_all c trans clock symbol).1 = Except.error e) := by
  refine ⟨?_, ?_, ?_, ?_, ?_⟩
  · intro b h
    simp only [cancel] at h
    split at h
    · simp at h
    · split at h
      · simp at h
      · simpa using h.symm
  · intro b h
    simp only [cancel_all] at h
    split at h
    · simp at h
    · split at h
      · simp at h
      · simpa using h.symm
  · intro ts hts htrans
    subst hts
    constructor
    · simp only [cancel, build_signed_request_some, delete_signed]
      obtain ⟨bdy, hbdy⟩ := htrans ⟨"DELETE",
        sign c "/fapi/v1/order"
          (serializeParams (signedParams (Btm.insert [] "orderId" id) ts)),
        build_headers c true⟩
      rw [hbdy]
      simp [handler]
    · simp only [cancel_all, build_signed_request_some, delete_signed]
      obtain ⟨bdy, hbdy⟩ := htrans ⟨"DELETE",
        sign c "/fapi/v1/allOpenOrders"
          (serializeParams (signedParams (Btm.insert [] "symbol" symbol) ts)),
        build_headers c true⟩
      rw [hbdy]
      simp [handler]
  · intro ts status bdy hts hstatus htrans
    subst hts
    constructor
    · simp only [cancel, build_signed_request_some, delete_signed]
      rw [htrans ⟨"DELETE",
        sign c "/fapi/v1/order"
          (serializeParams (signedParams (Btm.insert [] "orderId" id) ts)),
        build_headers c true⟩]
      simp [handler, hstatus]
    · simp only [cancel_all, build_signed_request_some, delete_signed]
      rw [htrans ⟨"DELETE",
        sign c "/fapi/v1/allOpenOrders"
          (serializeParams (signedParams (Btm.insert [] "symbol" symbol) ts)),
        build_headers c true⟩]
      simp [handler, hstatus]
  · intro ts e hts htrans
    subst hts
    constructor
    · simp only [cancel, build_signed_request_some, delete_signed]
      rw [htrans ⟨"DELETE",
        sign c "/fapi/v1/order"
          (serializeParams (signedParams (Btm.insert [] "orderId" id) ts)),
        build_headers c true⟩]
    · simp only [cancel_all, build_signed_request_some, delete_signed]
      rw [htrans ⟨"DELETE",
        sign c "/fapi/v1/allOpenOrders"
          (serializeParams (signedParams (Btm.insert [] "symbol" symbol) ts)),
        build_headers c true⟩]

/-- A transport that always answers status 404 with an empty body. -/
def err404Transport : Transport := fun _ => Except.ok ⟨404, ""⟩

/-- Witness for C10: with an always-200 transport and a working clock both
cancellations report `Ok(true)`, and with an always-404 transport both
report the `ApiError` carrying the status, not `Ok(false)`. -/
theorem C10_cancel_true_witness :
    ((cancel demoClient okTransport (some 1499827319559) "42").1 = Except.ok true ∧
     (cancel_all demoClient okTransport (some 1499827319559) "BTCUSDT").1
       = Except.ok true) ∧
    ((cancel demoClient err404Transport (some 1499827319559) "42").1
       = Except.error (ExError.ApiError "response: 404") ∧
     (cancel_all demoClient err404Transport (some 1499827319559) "BTCUSDT").1
       = Except.error (ExError.ApiError "response: 404")) :=
  ⟨(C10_cancel_true demoClient okTransport (some 1499827319559) "42" "BTCUSDT").2.2.1
    1499827319559 rfl (fun _ => ⟨"{}", rfl⟩),
   (C10_cancel_true demoClient err404Transport (some 1499827319559) "42" "BTCUSDT").2.2.2.1
    1499827319559 404 "" rfl (by decide) (fun _ => rfl)⟩

end Rsex
